import Mathlib

/-!
Verification of the runtime core of the `hermes` chat-relay bot
(`src/hermes/hermes.py`) against its natural-language specification.

The development shallowly embeds the parts of the module that the
specification talks about:

* the supervisor/restart loop of `run_hermes` (lines 531-555),
* the persistence flusher `SaveData.run` (lines 307-315),
* the health poller `PollApi.run` (lines 326-340),
* the control-socket listener validation in `Listener.run` (lines 390-398),
* the dispatcher `Hermes._dispatch` / `Hermes._execute_function` /
  `Hermes.check_admin` (lines 204-263).

Python string primitives used by that code (`str.split()`, `str.lower()`,
`str.endswith`, `str.split(",")`) are embedded as executable functions on
the character list of a `String`.  Handler bodies and the regular-expression
engine are external collaborators: a handler is represented by its declared
capability record plus a flag saying whether its invocations raise, and a
compiled rule is represented by its pattern text together with an abstract
search function standing for `re.search`.
-/

/-! ## Python string primitives -/

/-- Helper for `pysplit`: walks the character list, accumulating the current
token in reverse; whitespace finishes a token, and empty tokens are dropped,
exactly as Python `str.split()` with no argument behaves. -/
def splitWsAux : List Char → List Char → List String
  | [], acc => if acc = [] then [] else [String.mk acc.reverse]
  | c :: cs, acc =>
    if c.isWhitespace then
      (if acc = [] then splitWsAux cs [] else String.mk acc.reverse :: splitWsAux cs [])
    else splitWsAux cs (c :: acc)

/-- Embedding of Python `s.split()`: split on runs of whitespace, dropping
empty tokens.  (ASCII whitespace; the claims only involve spaces.) -/
def pysplit (s : String) : List String := splitWsAux s.data []

/-- Embedding of Python `s.lower()` (ASCII case folding suffices here). -/
def pyLower (s : String) : String := String.mk (s.data.map Char.toLower)

/-- Embedding of Python `s.endswith(post)`. -/
def pyEndsWith (s post : String) : Bool :=
  List.isPrefixOf post.data.reverse s.data.reverse

/-- Helper for `pyCommaHead`: characters before the first comma. -/
def commaHeadAux : List Char → List Char
  | [] => []
  | c :: cs => if c = ',' then [] else c :: commaHeadAux cs

/-- Embedding of Python `s.split(",")[0]`: the prefix of `s` before the first
comma (the whole string when no comma occurs); `split(",")` keeps empty
fields, so index 0 always exists. -/
def pyCommaHead (s : String) : String := String.mk (commaHeadAux s.data)

/-! ## Supervisor (`run_hermes`, lines 531-555)

The `while run_eternal` loop records `last_run = time.time()` just before
`hermes.start()` and classifies the exception that ends the session:

* `KeyboardInterrupt` / `SystemError` / `SystemExit`: disconnect with
  "Leaving..." and `break` out of the loop;
* `RestartException`: sleep 5 s, build a fresh `Hermes` and call its
  `start()` inside the handler (so an exception from that nested start
  escapes the loop entirely);
* any other `BaseException`: if `last_run > time.time() - 5`, i.e. the
  elapsed time since the session started is under 5 seconds, disconnect
  with "Crashed, going offline." and set `run_eternal = False` (the loop
  exits with no further restart); otherwise disconnect with
  "Crashed, going to reboot...", sleep 2 s, and loop, which starts a new
  session. -/

/-- How one call of `hermes.start()` ended.  `crash elapsed` is any
`BaseException` outside the two explicit classes, raised `elapsed` seconds
(as measured by `time.time()`) after the session's `last_run` stamp. -/
inductive SessionOutcome where
  | termination
  | restartReq
  | crash (elapsed : ℚ)

/-- Supervisor phases of the specification state machine. `ESCAPED` marks an
exception escaping the loop uncaught (possible only from the nested
`hermes.start()` inside the `RestartException` handler). -/
inductive SupPhase where
  | RUNNING
  | RESTARTING
  | STOPPING
  | FATAL
  | ESCAPED
deriving DecidableEq

/-- Effect of one exception-handling step of the supervisor loop: next
phase, the message passed to `hermes.disconnect` (if any), the
`time.sleep` backoff performed, and the value of `run_eternal` afterwards. -/
structure SupStep where
  next : SupPhase
  disconnectMsg : Option String
  backoff : ℚ
  keepRunning : Bool
deriving DecidableEq

/-- One step of the supervisor loop's exception classification
(`run_hermes`, lines 536-555). -/
def supervisorStep : SessionOutcome → SupStep
  | SessionOutcome.termination =>
      ⟨SupPhase.STOPPING, some ("Leaving..."), 0, false⟩
  | SessionOutcome.restartReq =>
      ⟨SupPhase.RESTARTING, none, 5, true⟩
  | SessionOutcome.crash e =>
      if e < 5 then ⟨SupPhase.FATAL, some ("Crashed, going offline."), 0, false⟩
      else ⟨SupPhase.RESTARTING, some ("Crashed, going to reboot..."), 2, true⟩

/-- Phases visited by the supervisor loop for a given list of session
outcomes (outcome `k` ends the `k`-th session the loop starts).  A fast
crash (elapsed under 5 s) sets `run_eternal = False`, so the loop consumes
no further outcome; a slow crash loops and starts the next session; a
termination-class exception breaks out; after a `RestartException` the next
session is started inside the handler, so any exception it raises escapes
the loop (`ESCAPED`).  A session that never ends corresponds to the list
ending. -/
def superviseTrace : List SessionOutcome → List SupPhase
  | [] => []
  | SessionOutcome.termination :: _ => [SupPhase.STOPPING]
  | SessionOutcome.restartReq :: rest =>
      SupPhase.RESTARTING ::
        (match rest with
         | [] => []
         | _ :: _ => [SupPhase.ESCAPED])
  | SessionOutcome.crash e :: rest =>
      if e < 5 then [SupPhase.FATAL]
      else SupPhase.RESTARTING :: superviseTrace rest

/-! ## Persistence flusher (`SaveData.run`, lines 307-315)

`run` initialises a local counter `cycle = 480` and each second executes:
`if cycle >= 600: save; cycle = 0`, then `cycle += 1`. -/

/-- Initial value of the `cycle` counter in `SaveData.run` (line 308). -/
def saveCycleInit : Nat := 480

/-- Save-interval threshold in `SaveData.run` (line 310). -/
def saveThreshold : Nat := 600

/-- One 1-second tick of `SaveData.run`: returns whether a save was
triggered this tick and the counter value after the tick. -/
def saveTick (cycle : Nat) : Bool × Nat :=
  if saveThreshold ≤ cycle then (true, 0 + 1) else (false, cycle + 1)

/-- Running `SaveData.run` for `n` ticks from counter value `cycle`:
final counter value and number of saves performed. -/
def saveRun : Nat → Nat → Nat × Nat
  | c, 0 => (c, 0)
  | c, n + 1 =>
    let t := saveTick c
    let r := saveRun t.2 n
    (r.1, (if t.1 then 1 else 0) + r.2)

/-! ## Health poller (`PollApi.run`, lines 326-340)

Each loop iteration probes the backend (`get_user(1)`, recording `True`
when the probe signals absence), inserts the result into the shared
`api_poll_results` window, possibly alerts the admins, and then evaluates
`time.sleep(self.api_poll_heartbeat)`.  The probe itself is an external
collaborator, so its outcome is an input of the embedded tick. -/

/-- Configuration read by the poller: the admin list
(`config.admins`) and the window threshold (`config.polling.threshold`,
copied to `bot.api_poll_threshold`). -/
structure PollConfig where
  admins : List String
  threshold : Nat

/-- Poller-visible mutable state: the window `bot.api_poll_results` and the
flag `bot.api_poll_messaged`. -/
structure PollState where
  results : List Bool
  messaged : Bool
deriving DecidableEq

/-- Text of the admin notification (line 338). -/
def alertText : String := "Bad polls exceeded threshold. Is the site down?"

/-- Window insertion (lines 332-335): append while below the threshold,
otherwise drop the head (`results[1:]`) and append. -/
def pollInsert (threshold : Nat) (w : List Bool) (r : Bool) : List Bool :=
  if w.length < threshold then w ++ [r] else w.tail ++ [r]

/-- The state-updating part of one `PollApi.run` iteration (lines 328-339):
insert the probe result, and when every entry of the resulting window is
`true` and the flag is unset, send one private message per configured
admin and set the flag.  Returns the new state and the list of
`(target, text)` messages sent. -/
def pollTick (cfg : PollConfig) (s : PollState) (probeFailed : Bool) :
    PollState × List (String × String) :=
  let w := pollInsert cfg.threshold s.results probeFailed
  if w.all (fun b => b) && !s.messaged then
    (⟨w, true⟩, cfg.admins.map (fun a => (a, alertText)))
  else
    (⟨w, s.messaged⟩, [])

/-- Iterated `pollTick` over a list of probe outcomes, collecting all
messages sent. -/
def pollRun (cfg : PollConfig) (s : PollState) :
    List Bool → PollState × List (String × String)
  | [] => (s, [])
  | p :: ps =>
    let t := pollTick cfg s p
    let r := pollRun cfg t.1 ps
    (r.1, t.2 ++ r.2)

/-- Instance attributes assigned on a `PollApi` object: its `__init__`
(lines 322-324) sets only `self.bot` (the `Thread` base initialiser sets no
attribute named like a poller field). -/
def pollApiInstanceAttrs : List String := ["bot"]

/-- Name of the attribute read by `time.sleep(self.api_poll_heartbeat)` at
line 340, looked up on the `PollApi` instance itself. -/
def heartbeatAttr : String := "api_poll_heartbeat"

/-- Error text of the failing attribute lookup at line 340. -/
def heartbeatAttrError : String :=
  "AttributeError: PollApi object has no attribute api_poll_heartbeat"

/-- A full `PollApi.run` iteration, including the final
`time.sleep(self.api_poll_heartbeat)` (line 340).  The attribute
`api_poll_heartbeat` is looked up on the `PollApi` instance itself; when
the lookup fails the iteration raises `AttributeError` after the insert
and alert check have already executed. -/
def pollTickFull (cfg : PollConfig) (s : PollState) (probeFailed : Bool) :
    Except String (PollState × List (String × String)) :=
  let t := pollTick cfg s probeFailed
  if heartbeatAttr ∈ pollApiInstanceAttrs then Except.ok t
  else Except.error heartbeatAttrError

/-! ## Control-socket listener (`Listener.run`, lines 384-398)

For each accepted connection the listener reads at most 510 bytes, decodes
with replacement, strips whitespace and closes the connection; the claims
take the resulting trimmed payload as input.  The validation is:
`data_details = data.split()`; fewer than 2 tokens → `continue`;
`data_details[0] in ["/privmsg", "privmsg"] and data_details[1] == "#"` →
`continue`; otherwise `self.connection.send_raw(data)` when
`self.connection is not None`. -/

/-- Validation and forwarding of one relay payload: `hasConnection` models
whether `set_connection` has attached a session reference; the result is
`some line` when the payload is forwarded verbatim via `send_raw`, and
`none` when it is dropped. -/
def listenerRelay (hasConnection : Bool) (data : String) : Option String :=
  let details := pysplit data
  if details.length < 2 then none
  else if (details.headD ("") == "/privmsg" || details.headD ("") == "privmsg")
      && (details.tail).headD ("") == "#" then none
  else if hasConnection then some data
  else none

/-! ## Dispatcher (`Hermes._dispatch` and friends, lines 204-263)

A handler loaded from a module is represented by its capability record:
`commands`/`rules` are `Option`s because the code probes them with
`hasattr`; `raises` abstracts the body of the handler (an external
collaborator), saying whether calling it raises.  `re.search` is abstracted
by a search function carried by each rule, returning the matched text when
the pattern matches anywhere in the message. -/

/-- Compiled rule: the pattern text and an abstract `re.search` returning
the matched text, when any. -/
structure Rule where
  pattern : String
  search : String → Option String

/-- Capability record of one registered handler (`mod.__callables__`
entry). -/
structure Func where
  fname : String
  commands : Option (List String)
  rules : Option (List Rule)
  events : List String
  disabled : Bool
  admin_only : Bool
  raises : Bool

/-- Sender of an event (`event.source`). -/
structure Source where
  nick : String
  host : Option String
deriving DecidableEq

/-- Configuration consulted by the dispatcher: `config.admins` and
`config.site.tld`. -/
structure BotConfig where
  admins : List String
  tld : String

/-- Embedding of `Hermes.check_admin` (lines 217-221):
`event.source.nick in admins and event.source.host is not None and
event.source.host.endswith(tld) and host.split(",")[0] not in admins`. -/
def check_admin (cfg : BotConfig) (src : Source) : Bool :=
  decide (src.nick ∈ cfg.admins) &&
    (match src.host with
     | none => false
     | some h => pyEndsWith h cfg.tld && !(decide (pyCommaHead h ∈ cfg.admins)))

/-- What a single handler invocation was triggered by: a matching declared
command, or a rule whose search matched (carrying the matched text handed
to the handler). -/
inductive Trigger where
  | cmd (c : String)
  | rule (pattern matched : String)
deriving DecidableEq

/-- Observable actions of a dispatch: a handler call (module name, handler
name, trigger), a `connection.privmsg` reply, or a
`logger.exception` record. -/
inductive DispatchAction where
  | call (modName funcName : String) (t : Trigger)
  | reply (target text : String)
  | logError (modName funcName : String)
deriving DecidableEq

/-- The command test of `_execute_function` (lines 207-209):
`cmd == "." + command or cmd == "!" + command or
(event.type == "privmsg" and cmd == command)`. -/
def cmdMatch (etype cmd c : String) : Bool :=
  cmd == "." ++ c || cmd == "!" ++ c || (etype == "privmsg" && cmd == c)

/-- Triggers produced by the command loop of `_execute_function`
(lines 206-210), in declaration order. -/
def cmdTriggers (f : Func) (etype cmd : String) : List Trigger :=
  match f.commands with
  | none => []
  | some cs => (cs.filter (cmdMatch etype cmd)).map Trigger.cmd

/-- Triggers produced by the rule loop of `_execute_function`
(lines 211-215), in declaration order. -/
def ruleTriggers (f : Func) (msg : String) : List Trigger :=
  match f.rules with
  | none => []
  | some rs => rs.filterMap (fun r => (r.search msg).map (Trigger.rule r.pattern))

/-- All invocations `_execute_function` would perform for this handler on
this event, in program order (commands first, then rules). -/
def allTriggers (f : Func) (etype cmd msg : String) : List Trigger :=
  cmdTriggers f etype cmd ++ ruleTriggers f msg

/-- Embedding of `Hermes._execute_function` (lines 204-215) as seen from
the caller: the invocations actually performed and whether an exception
escaped.  A raising handler raises at its first invocation, so the later
matches of the same handler are skipped. -/
def execute_function (f : Func) (etype cmd msg : String) : List Trigger × Bool :=
  let ts := allTriggers f etype cmd msg
  if f.raises then (ts.take 1, !ts.isEmpty) else (ts, false)

/-- Apostrophe character, kept out of string literals. -/
def apos : String := String.singleton (Char.ofNat 39)

/-- Apology text built at lines 255-259. -/
def apologyText (modName funcName : String) : String :=
  "I" ++ apos ++ "m sorry, " ++ modName ++ "." ++ funcName ++
    " threw an exception." ++ " Please tell an administrator and try again later."

/-- Body of the per-handler loop of `_dispatch` (lines 244-263): skip
disabled handlers and admin-only handlers with a non-admin source; inside
the `try`, call `_execute_function` when the event type is declared; on an
escaping exception, reply with the apology to `event.source.nick` when the
event is a private message, and log the failure. -/
def dispatchFunc (cfg : BotConfig) (modName etype : String) (src : Source)
    (cmd msg : String) (f : Func) : List DispatchAction :=
  if f.disabled then []
  else if f.admin_only && !(check_admin cfg src) then []
  else if etype ∈ f.events then
    let r := execute_function f etype cmd msg
    r.1.map (DispatchAction.call modName f.fname) ++
      (if r.2 then
        (if etype == "privmsg" then
          [DispatchAction.reply src.nick (apologyText modName f.fname)]
         else []) ++ [DispatchAction.logError modName f.fname]
       else [])
  else []

/-- The inner `for func in mod.__callables__` loop of `_dispatch`. -/
def runFuncs (cfg : BotConfig) (modName etype : String) (src : Source)
    (cmd msg : String) : List Func → List DispatchAction
  | [] => []
  | f :: fs =>
    dispatchFunc cfg modName etype src cmd msg f ++
      runFuncs cfg modName etype src cmd msg fs

/-- The outer `for name, mod in self.modules.items()` loop of `_dispatch`;
the registry is the insertion-ordered list of `(module name, handlers)`. -/
def runModules (cfg : BotConfig) (etype : String) (src : Source)
    (cmd msg : String) : List (String × List Func) → List DispatchAction
  | [] => []
  | (m, fs) :: rest =>
    runFuncs cfg m etype src cmd msg fs ++ runModules cfg etype src cmd msg rest

/-- Embedding of `Hermes._dispatch` (lines 223-263): derive
`event.msg = arguments[0]`, `args = arguments[0].split()`, return
immediately when `args` is empty, set `event.cmd = args[0].lower()`, then
run the registry loops.  The result is the ordered list of observable
actions. -/
def dispatch (cfg : BotConfig) (mods : List (String × List Func))
    (etype : String) (src : Source) (text : String) : List DispatchAction :=
  match pysplit text with
  | [] => []
  | a0 :: _ => runModules cfg etype src (pyLower a0) text mods

/-- Commands the specification says trigger a handler, written from the
claim text for comparison with the source-side `cmdTriggers`: declared
commands `c` with `event.cmd` equal to `"." ++ c`, `"!" ++ c`, or, for a
direct message, bare `c`. -/
def claimMatchingCommands (f : Func) (etype cmd : String) : List String :=
  (f.commands.getD []).filter (fun c =>
    decide (cmd = "." ++ c) || decide (cmd = "!" ++ c) ||
      (decide (etype = "privmsg") && decide (cmd = c)))

/-! ## Helper lemmas -/

lemma pollTick_results (cfg : PollConfig) (s : PollState) (p : Bool) :
    (pollTick cfg s p).1.results = pollInsert cfg.threshold s.results p := by
  simp only [pollTick]
  split <;> rfl

lemma pollTick_of_messaged (cfg : PollConfig) (s : PollState) (p : Bool)
    (h : s.messaged = true) :
    pollTick cfg s p = (⟨pollInsert cfg.threshold s.results p, true⟩, []) := by
  unfold pollTick
  simp [h]

lemma pollInsert_length_le (threshold : Nat) (ht : 1 ≤ threshold)
    (w : List Bool) (r : Bool) (h : w.length ≤ threshold) :
    (pollInsert threshold w r).length ≤ threshold := by
  unfold pollInsert
  split
  · simpa using ‹w.length < threshold›
  · cases w with
    | nil => simpa using ht
    | cons a as =>
      simp only [List.tail_cons, List.length_append, List.length_cons,
        List.length_nil] at *
      omega

lemma runModules_append (cfg : BotConfig) (etype : String) (src : Source)
    (cmd msg : String) (xs ys : List (String × List Func)) :
    runModules cfg etype src cmd msg (xs ++ ys) =
      runModules cfg etype src cmd msg xs ++ runModules cfg etype src cmd msg ys := by
  induction xs with
  | nil => rfl
  | cons hd tl ih =>
    cases hd
    simp [runModules, ih]

lemma runFuncs_append (cfg : BotConfig) (modName etype : String) (src : Source)
    (cmd msg : String) (xs ys : List Func) :
    runFuncs cfg modName etype src cmd msg (xs ++ ys) =
      runFuncs cfg modName etype src cmd msg xs ++ runFuncs cfg modName etype src cmd msg ys := by
  induction xs with
  | nil => rfl
  | cons hd tl ih => simp [runFuncs, ih]

lemma string_beq_eq_decide (a b : String) : (a == b) = decide (a = b) := by
  by_cases h : a = b <;> simp [h]

lemma cmdMatch_eq_decide (etype cmd c : String) :
    cmdMatch etype cmd c =
      (decide (cmd = "." ++ c) || decide (cmd = "!" ++ c) ||
        (decide (etype = "privmsg") && decide (cmd = c))) := by
  simp only [cmdMatch, string_beq_eq_decide]

lemma cmdTriggers_eq_claim (f : Func) (etype cmd : String) :
    cmdTriggers f etype cmd = (claimMatchingCommands f etype cmd).map Trigger.cmd := by
  unfold cmdTriggers claimMatchingCommands
  cases hc : f.commands with
  | none => rfl
  | some cs =>
    simp only [Option.getD_some]
    congr 1

lemma filter_fst_map_alert (l : List String) (a : String)
    (hnd : l.Nodup) (hmem : a ∈ l) :
    ((l.map (fun x => (x, alertText))).filter (fun m => decide (m.1 = a))).length = 1 := by
  induction l with
  | nil => cases hmem
  | cons x xs ih =>
    simp only [List.map_cons, List.filter_cons]
    by_cases hx : x = a
    · subst hx
      have hnotin : x ∉ xs := (List.nodup_cons.mp hnd).1
      have hzero :
          ((xs.map (fun y => (y, alertText))).filter (fun m => decide (m.1 = x))) = [] := by
        rw [List.filter_eq_nil_iff]
        intro m hm
        obtain ⟨y, hy, rfl⟩ := List.mem_map.mp hm
        simp only [decide_eq_true_eq]
        intro h
        exact hnotin (h ▸ hy)
      simp [hzero]
    · have hmem2 : a ∈ xs := by
        rcases List.mem_cons.mp hmem with h | h
        · exact absurd h.symm hx
        · exact h
      have hnd2 : xs.Nodup := (List.nodup_cons.mp hnd).2
      simp only [decide_eq_true_eq]
      rw [if_neg (by simpa using hx)]
      exact ih hnd2 hmem2

lemma dispatchFunc_eligible (cfg : BotConfig) (modName etype : String)
    (src : Source) (cmd msg : String) (f : Func)
    (hdis : f.disabled = false)
    (hadm : f.admin_only = true → check_admin cfg src = true)
    (hev : etype ∈ f.events) :
    dispatchFunc cfg modName etype src cmd msg f =
      (execute_function f etype cmd msg).1.map (DispatchAction.call modName f.fname) ++
        (if (execute_function f etype cmd msg).2 then
          (if etype == "privmsg" then
            [DispatchAction.reply src.nick (apologyText modName f.fname)]
           else []) ++ [DispatchAction.logError modName f.fname]
         else []) := by
  have hba : (f.admin_only && !(check_admin cfg src)) = false := by
    cases hao : f.admin_only with
    | false => simp
    | true => simp [hadm hao]
  unfold dispatchFunc
  simp only [hdis, Bool.false_eq_true, if_false, hba, if_pos hev]

/-! ## Claim C1 (supervisor two-crash scenario) -/

/-- Claim C1, counterexample: an unclassified exception raised 1 second
after the session start is a crash with elapsed time under the 5-second
window, so `run_hermes` disconnects with the offline message, sets
`run_eternal = False` and exits the loop at once: the very first transition
is `FATAL`, not `RESTARTING`, and no restart happens.  The claimed first
step of the scenario is therefore false. -/
theorem supervisor_first_crash_at_1s_is_fatal :
    superviseTrace [SessionOutcome.crash 1, SessionOutcome.crash 1] = [SupPhase.FATAL] ∧
    (supervisorStep (SessionOutcome.crash 1)).next = SupPhase.FATAL ∧
    SupPhase.FATAL ≠ SupPhase.RESTARTING := by
  have h15 : (1 : ℚ) < 5 := by norm_num
  refine ⟨?_, ?_, by decide⟩ <;> simp [superviseTrace, supervisorStep, h15]

/-- Claim C1 as amended: the roles of the two crashes are the reverse of
the claim.  A first unclassified exception at least 5 seconds after the
session start moves the supervisor to `RESTARTING` and the session is
restarted; when the restarted session raises an unclassified exception 1
second after the restart, the next state is `FATAL` and the process
attempts no further restart (the remaining outcomes are never consumed). -/
theorem supervisor_two_crash_scenario (e : ℚ) (he : 5 ≤ e)
    (rest : List SessionOutcome) :
    superviseTrace (SessionOutcome.crash e :: SessionOutcome.crash 1 :: rest) =
      [SupPhase.RESTARTING, SupPhase.FATAL] := by
  show (if e < 5 then _ else SupPhase.RESTARTING :: superviseTrace _) = _
  rw [if_neg (not_lt.mpr he)]
  show _ :: (if (1 : ℚ) < 5 then [SupPhase.FATAL] else _) = _
  rw [if_pos (by norm_num)]

/-- Witness for `supervisor_two_crash_scenario` at a crash 6 seconds after
start followed by a crash 1 second after the restart. -/
theorem supervisor_two_crash_scenario_witness :
    superviseTrace [SessionOutcome.crash 6, SessionOutcome.crash 1] =
      [SupPhase.RESTARTING, SupPhase.FATAL] :=
  supervisor_two_crash_scenario 6 (by norm_num) []

/-! ## Claim C2 (supervisor crash classification) -/

/-- Claim C2: for an unclassified exception escaping the session, elapsed
time under the 5-second crash window means disconnect with the offline
notice, `run_eternal = False` and terminal `FATAL` (the loop consumes no
further session); otherwise disconnect with the rebooting notice, a
2-second `time.sleep` backoff and `RESTARTING` (the loop starts the next
session). -/
theorem supervisor_crash_classification (e : ℚ) (rest : List SessionOutcome) :
    (e < 5 →
      supervisorStep (SessionOutcome.crash e) =
        ⟨SupPhase.FATAL, some ("Crashed, going offline."), 0, false⟩ ∧
      superviseTrace (SessionOutcome.crash e :: rest) = [SupPhase.FATAL]) ∧
    (5 ≤ e →
      supervisorStep (SessionOutcome.crash e) =
        ⟨SupPhase.RESTARTING, some ("Crashed, going to reboot..."), 2, true⟩ ∧
      superviseTrace (SessionOutcome.crash e :: rest) =
        SupPhase.RESTARTING :: superviseTrace rest) := by
  constructor
  · intro h
    constructor
    · show (if e < 5 then _ else _) = _
      rw [if_pos h]
    · show (if e < 5 then _ else _) = _
      rw [if_pos h]
  · intro h
    constructor
    · show (if e < 5 then _ else _) = _
      rw [if_neg (not_lt.mpr h)]
    · show (if e < 5 then _ else _) = _
      rw [if_neg (not_lt.mpr h)]

/-- Witness for `supervisor_crash_classification` at elapsed times 1 and 7. -/
theorem supervisor_crash_classification_witness :
    supervisorStep (SessionOutcome.crash 1) =
      ⟨SupPhase.FATAL, some ("Crashed, going offline."), 0, false⟩ ∧
    supervisorStep (SessionOutcome.crash 7) =
      ⟨SupPhase.RESTARTING, some ("Crashed, going to reboot..."), 2, true⟩ ∧
    superviseTrace [SessionOutcome.crash 7, SessionOutcome.termination] =
      SupPhase.RESTARTING :: superviseTrace [SessionOutcome.termination] :=
  ⟨((supervisor_crash_classification 1 []).1 (by norm_num)).1,
   ((supervisor_crash_classification 7 []).2 (by norm_num)).1,
   ((supervisor_crash_classification 7 [SessionOutcome.termination]).2 (by norm_num)).2⟩

/-! ## Claim C3 (health poller tick totality) -/

/-- Claim C3 is false of the code and the code contradicts its own intent:
`Hermes.__init__` stores the configured heartbeat as
`self.api_poll_heartbeat` on the bot (line 135) precisely for the poller,
and every other access in `PollApi.run` goes through `self.bot`, but line
340 reads `self.api_poll_heartbeat` on the `PollApi` thread object, whose
initialiser sets only `self.bot`.  Hence every iteration of the poller
loop, for every configuration, state and probe outcome, raises
`AttributeError` at the sleep step instead of completing normally, and the
thread dies after its first iteration. -/
theorem poll_tick_always_raises (cfg : PollConfig) (s : PollState) (p : Bool) :
    pollTickFull cfg s p = Except.error heartbeatAttrError := by
  unfold pollTickFull
  rw [if_neg (by decide)]

/-! ## Claim C4 (persistence flusher counter discipline) -/

set_option maxRecDepth 10000

/-- Claim C4, counterexample: the save check runs before the increment, so
a tick starting with the counter at interval−1 (599) performs no save (the
save comes only on the following tick); moreover the counter starts at
480, not 0, so the first save happens on the 121st tick (≈2 minutes after
the flusher starts), not ≈600 ticks (10 minutes) after start. -/
theorem save_at_599_does_not_save :
    saveTick 599 = (false, 600) ∧
    (saveRun 599 1).2 = 0 ∧
    (saveRun saveCycleInit 120).2 = 0 ∧
    (saveRun saveCycleInit 121).2 = 1 := by
  refine ⟨by decide, by decide, ?_, ?_⟩ <;> decide

/-- Claim C4 as amended: a tick triggers a save exactly when it starts
with the counter at the 600-tick threshold or beyond; the counter is reset
to 0 immediately after the save and then incremented, so the counter is 1
at the end of a saving tick and consecutive saves are exactly 600 ticks
(≈10 minutes) apart; since the counter starts at 480, the first save
occurs on the 121st tick (≈2 minutes after the flusher starts); a tick
starting at the threshold (600) triggers exactly one save, while a tick
starting at interval−1 (599) triggers none. -/
theorem save_counter_discipline (c : Nat) :
    (c < saveThreshold → saveTick c = (false, c + 1)) ∧
    (saveThreshold ≤ c → saveTick c = (true, 1)) ∧
    (saveRun saveCycleInit 120).2 = 0 ∧
    (saveRun saveCycleInit 121).2 = 1 ∧
    (saveRun 1 599).2 = 0 ∧
    (saveRun 1 600).2 = 1 := by
  refine ⟨?_, ?_, by decide, by decide, ?_, ?_⟩
  · intro h
    unfold saveTick
    rw [if_neg (by omega)]
  · intro h
    unfold saveTick
    rw [if_pos h]
  · decide
  · decide

/-- Witness for `save_counter_discipline` at counter values 599 and 600. -/
theorem save_counter_discipline_witness :
    saveTick 599 = (false, 599 + 1) ∧ saveTick 600 = (true, 1) :=
  ⟨(save_counter_discipline 599).1 (by norm_num [saveThreshold]),
   (save_counter_discipline 600).2.1 (by norm_num [saveThreshold])⟩

/-! ## Claim C8 (one-time health alert) -/

/-- Claim C8: on a tick whose recorded window holds threshold-many
entries, all of them failures, with the alerted flag still unset, the tick
sends exactly one private notification per configured admin identity and
sets the flag; and once the flag is set it is never cleared, so any later
sequence of ticks — in particular a second consecutive full-failure
window — sends no further notification. -/
theorem poll_alert_one_time (cfg : PollConfig) (s : PollState) (p : Bool)
    (probes : List Bool) (a : String) :
    ((pollInsert cfg.threshold s.results p).length = cfg.threshold →
     (pollInsert cfg.threshold s.results p).all (fun b => b) = true →
     s.messaged = false →
      pollTick cfg s p =
        (⟨pollInsert cfg.threshold s.results p, true⟩,
          cfg.admins.map (fun x => (x, alertText))) ∧
      (cfg.admins.Nodup → a ∈ cfg.admins →
        ((cfg.admins.map (fun x => (x, alertText))).filter
          (fun m => decide (m.1 = a))).length = 1)) ∧
    (s.messaged = true →
      (pollRun cfg s probes).2 = [] ∧ (pollRun cfg s probes).1.messaged = true) := by
  constructor
  · intro _ hall hmsg
    constructor
    · unfold pollTick
      simp [hall, hmsg]
    · intro hnd hmem
      exact filter_fst_map_alert cfg.admins a hnd hmem
  · intro hmsg
    induction probes generalizing s with
    | nil => exact ⟨rfl, hmsg⟩
    | cons q qs ih =>
      have hstep := pollTick_of_messaged cfg s q hmsg
      have hrec := ih (s := ⟨pollInsert cfg.threshold s.results q, true⟩) rfl
      simp only [pollRun, hstep]
      exact ⟨by simpa using hrec.1, hrec.2⟩

/-- Witness for `poll_alert_one_time`: a two-admin configuration with
threshold 2, a window one failure short of full, and a failing probe; and
the post-alert state processed through two further failing probes without
any message. -/
theorem poll_alert_one_time_witness :
    pollTick ⟨["alice", "bob"], 2⟩ ⟨[true], false⟩ true =
      (⟨pollInsert 2 [true] true, true⟩,
        (["alice", "bob"] : List String).map (fun x => (x, alertText))) ∧
    (((["alice", "bob"] : List String).map (fun x => (x, alertText))).filter
        (fun m => decide (m.1 = "alice"))).length = 1 ∧
    (pollRun ⟨["alice", "bob"], 2⟩ ⟨[true, true], true⟩ [true, true]).2 = [] :=
  ⟨((poll_alert_one_time ⟨["alice", "bob"], 2⟩ ⟨[true], false⟩ true [] "alice").1
      (by decide) (by decide) rfl).1,
   ((poll_alert_one_time ⟨["alice", "bob"], 2⟩ ⟨[true], false⟩ true [] "alice").1
      (by decide) (by decide) rfl).2 (by decide) (by decide),
   ((poll_alert_one_time ⟨["alice", "bob"], 2⟩ ⟨[true, true], true⟩ true
      [true, true] "alice").2 rfl).1⟩

/-! ## Claim C9 (poll window capacity invariant) -/

/-- Claim C9, counterexample: with the threshold configured as 0 the
insert at lines 332-335 takes the eviction branch on the empty window and
produces a one-entry window, so after the tick the window length exceeds
the configured threshold. -/
theorem poll_window_exceeds_zero_threshold :
    (pollInsert 0 [] true).length = 1 ∧
    ¬ ((pollInsert 0 [] true).length ≤ 0) ∧
    (pollTick ⟨[], 0⟩ ⟨[], false⟩ true).1.results.length = 1 := by
  refine ⟨by decide, by decide, by decide⟩

/-- Claim C9 as amended: for every positive configured threshold the
window is a fixed-capacity FIFO — an insert into a window within capacity
stays within capacity, an insert into a window holding exactly
threshold-many entries evicts the oldest entry and appends the new result,
and any run of ticks from a state within capacity (in particular from the
initial empty window) keeps the window length at most the threshold.
(With threshold 0 the window instead reaches and keeps length 1.) -/
theorem poll_window_capacity (cfg : PollConfig) (ht : 1 ≤ cfg.threshold)
    (w : List Bool) (r : Bool) (s : PollState) (probes : List Bool) :
    (w.length ≤ cfg.threshold → (pollInsert cfg.threshold w r).length ≤ cfg.threshold) ∧
    (w.length = cfg.threshold → pollInsert cfg.threshold w r = w.tail ++ [r]) ∧
    (s.results.length ≤ cfg.threshold →
      (pollRun cfg s probes).1.results.length ≤ cfg.threshold) := by
  refine ⟨pollInsert_length_le cfg.threshold ht w r, ?_, ?_⟩
  · intro h
    unfold pollInsert
    rw [if_neg (by omega)]
  · intro hs
    induction probes generalizing s with
    | nil => exact hs
    | cons q qs ih =>
      have hlen : (pollTick cfg s q).1.results.length ≤ cfg.threshold := by
        rw [pollTick_results]
        exact pollInsert_length_le cfg.threshold ht s.results q hs
      simp only [pollRun]
      exact ih (s := (pollTick cfg s q).1) hlen

/-- Witness for `poll_window_capacity` with threshold 2: a full window
evicts its oldest entry, and three ticks from the empty window stay within
capacity. -/
theorem poll_window_capacity_witness :
    pollInsert 2 [true, false] true = [false, true] ∧
    (pollRun ⟨[], 2⟩ ⟨[], false⟩ [true, false, true]).1.results.length ≤ 2 :=
  ⟨by
    have h := (poll_window_capacity ⟨[], 2⟩ (by decide) [true, false] true
      ⟨[], false⟩ []).2.1 (by decide)
    simpa using h,
   (poll_window_capacity ⟨[], 2⟩ (by decide) [] true ⟨[], false⟩
      [true, false, true]).2.2 (by decide)⟩

/-! ## Claim C7 (control-socket relay validation) -/

/-- Claim C7: a trimmed payload splitting into fewer than 2 whitespace
tokens is dropped; a payload whose first token is `privmsg` or `/privmsg`
with second token exactly `#` is dropped silently; every other payload is
forwarded verbatim when a session reference is attached and dropped
silently when none is. -/
theorem listener_relay_validation (hasConn : Bool) (data : String) :
    ((pysplit data).length < 2 → listenerRelay hasConn data = none) ∧
    (∀ t0 t1 rest, pysplit data = t0 :: t1 :: rest →
      (t0 = "privmsg" ∨ t0 = "/privmsg") → t1 = "#" →
      listenerRelay hasConn data = none) ∧
    (∀ t0 t1 rest, pysplit data = t0 :: t1 :: rest →
      ¬ ((t0 = "privmsg" ∨ t0 = "/privmsg") ∧ t1 = "#") →
      listenerRelay hasConn data = (if hasConn then some data else none)) := by
  refine ⟨?_, ?_, ?_⟩
  · intro h
    unfold listenerRelay
    rw [if_pos h]
  · intro t0 t1 rest hsp h0 h1
    unfold listenerRelay
    rw [hsp]
    rw [if_neg (by simp)]
    rw [if_pos ?_]
    subst h1
    rcases h0 with h0 | h0 <;> subst h0 <;> simp
  · intro t0 t1 rest hsp hno
    unfold listenerRelay
    rw [hsp]
    rw [if_neg (by simp)]
    rw [if_neg ?_]
    simp only [List.headD_cons, List.tail_cons, Bool.and_eq_true, Bool.or_eq_true,
      string_beq_eq_decide, decide_eq_true_eq]
    rintro ⟨h0, h1⟩
    exact hno ⟨Or.symm h0, h1⟩

/-- Witness for `listener_relay_validation`: the three scenario payloads of
the specification. -/
theorem listener_relay_validation_witness :
    listenerRelay true ("privmsg # hello") = none ∧
    listenerRelay true ("privmsg bob hello") = some ("privmsg bob hello") ∧
    listenerRelay false ("privmsg bob hello") = none ∧
    listenerRelay true ("hello") = none :=
  ⟨(listener_relay_validation true ("privmsg # hello")).2.1
      "privmsg" "#" ["hello"] (by decide) (Or.inl rfl) rfl,
   by
    have h := (listener_relay_validation true ("privmsg bob hello")).2.2
      "privmsg" "bob" ["hello"] (by decide) (by simp)
    simpa using h,
   by
    have h := (listener_relay_validation false ("privmsg bob hello")).2.2
      "privmsg" "bob" ["hello"] (by decide) (by simp)
    simpa using h,
   (listener_relay_validation true ("hello")).1 (by decide)⟩

/-! ## Dispatcher decomposition -/

lemma dispatch_decomp (cfg : BotConfig) (pre post : List (String × List Func))
    (m : String) (fpre fpost : List Func) (f : Func) (etype : String)
    (src : Source) (text a0 : String) (restTok : List String)
    (hsplit : pysplit text = a0 :: restTok) :
    dispatch cfg (pre ++ (m, fpre ++ f :: fpost) :: post) etype src text =
      runModules cfg etype src (pyLower a0) text pre ++
      runFuncs cfg m etype src (pyLower a0) text fpre ++
      dispatchFunc cfg m etype src (pyLower a0) text f ++
      runFuncs cfg m etype src (pyLower a0) text fpost ++
      runModules cfg etype src (pyLower a0) text post := by
  simp only [dispatch, hsplit]
  rw [runModules_append]
  simp only [runModules]
  rw [runFuncs_append]
  simp only [runFuncs, List.append_assoc, List.append_nil]

/-! ## Claim C5 (dispatch command matching) -/

/-- Claim C5: for an event whose text has at least one token, a handler
occurrence anywhere in the registry that is not disabled, satisfies the
admin restriction, declares the event type, and returns normally
contributes exactly one call per declared command matching the
specification's rule (`event.cmd` equal to `"." ++ c`, `"!" ++ c`, or bare
`c` on a direct message), in declaration order, followed by its rule-match
calls — and does not disturb the contributions of the handlers before or
after it; a disabled handler, or an admin-only handler with a non-admin
source, contributes nothing at all regardless of matches. -/
theorem dispatch_command_matching (cfg : BotConfig)
    (pre post : List (String × List Func)) (m : String)
    (fpre fpost : List Func) (f : Func) (etype : String) (src : Source)
    (text a0 : String) (restTok : List String)
    (hsplit : pysplit text = a0 :: restTok) :
    (f.disabled = false →
     (f.admin_only = true → check_admin cfg src = true) →
     etype ∈ f.events →
     f.raises = false →
      dispatch cfg (pre ++ (m, fpre ++ f :: fpost) :: post) etype src text =
        runModules cfg etype src (pyLower a0) text pre ++
        runFuncs cfg m etype src (pyLower a0) text fpre ++
        ((claimMatchingCommands f etype (pyLower a0)).map
            (fun c => DispatchAction.call m f.fname (Trigger.cmd c)) ++
          (ruleTriggers f text).map (DispatchAction.call m f.fname)) ++
        runFuncs cfg m etype src (pyLower a0) text fpost ++
        runModules cfg etype src (pyLower a0) text post) ∧
    (f.disabled = true →
      dispatch cfg (pre ++ (m, fpre ++ f :: fpost) :: post) etype src text =
        runModules cfg etype src (pyLower a0) text pre ++
        runFuncs cfg m etype src (pyLower a0) text fpre ++
        runFuncs cfg m etype src (pyLower a0) text fpost ++
        runModules cfg etype src (pyLower a0) text post) ∧
    (f.admin_only = true → check_admin cfg src = false →
      dispatch cfg (pre ++ (m, fpre ++ f :: fpost) :: post) etype src text =
        runModules cfg etype src (pyLower a0) text pre ++
        runFuncs cfg m etype src (pyLower a0) text fpre ++
        runFuncs cfg m etype src (pyLower a0) text fpost ++
        runModules cfg etype src (pyLower a0) text post) := by
  have hd := dispatch_decomp cfg pre post m fpre fpost f etype src text a0 restTok hsplit
  refine ⟨?_, ?_, ?_⟩
  · intro hdis hadm hev hraise
    rw [hd, dispatchFunc_eligible cfg m etype src (pyLower a0) text f hdis hadm hev]
    simp only [execute_function, hraise, Bool.false_eq_true, if_false,
      allTriggers, cmdTriggers_eq_claim, List.map_append, List.map_map,
      Function.comp_def, List.append_assoc, List.nil_append, List.append_nil]
  · intro hdis
    have hmid : dispatchFunc cfg m etype src (pyLower a0) text f = [] := by
      unfold dispatchFunc
      rw [hdis]
      simp
    rw [hd, hmid]
    simp only [List.append_nil, List.nil_append, List.append_assoc]
  · intro hao hca
    have hmid : dispatchFunc cfg m etype src (pyLower a0) text f = [] := by
      cases hdd : f.disabled with
      | true =>
        unfold dispatchFunc
        rw [hdd]
        simp
      | false =>
        unfold dispatchFunc
        rw [hdd]
        simp [hao, hca]
    rw [hd, hmid]
    simp only [List.append_nil, List.nil_append, List.append_assoc]

/-- Witness for `dispatch_command_matching`: a one-module registry whose
handler declares commands `hello` and `hi`; on the direct-message text
`!hello there` the dispatch performs exactly one call, triggered by the
matching declared command `hello`. -/
theorem dispatch_command_matching_witness :
    dispatch ⟨["root"], (".tld")⟩
      [("greet", [⟨"hello", some ["hello", "hi"], none,
        ["privmsg", "pubmsg"], false, false, false⟩])]
      ("privmsg") ⟨"bob", none⟩ ("!hello there") =
      [DispatchAction.call "greet" "hello" (Trigger.cmd "hello")] := by
  have h := (dispatch_command_matching ⟨["root"], (".tld")⟩ [] [] "greet" [] []
      ⟨"hello", some ["hello", "hi"], none, ["privmsg", "pubmsg"], false, false, false⟩
      "privmsg" ⟨"bob", none⟩ ("!hello there") "!hello" ["there"] (by decide)).1
      rfl (fun hh => absurd hh (by decide)) (by decide) rfl
  exact h.trans (by rfl)

/-! ## Claim C6 (handler failure isolation) -/

/-- Claim C6: an exception raised inside a triggered handler is caught at
the per-handler boundary of `_dispatch`; the handlers after it in the same
module and the modules after it are still processed exactly as before, and
the failure produces exactly one apology reply — sent to the event source
nick — when the event is a direct message, and no reply in channel
context, plus a log record. -/
theorem dispatch_failure_isolation (cfg : BotConfig)
    (pre post : List (String × List Func)) (m : String)
    (fpre fpost : List Func) (f : Func) (etype : String) (src : Source)
    (text a0 : String) (restTok : List String)
    (hsplit : pysplit text = a0 :: restTok)
    (hdis : f.disabled = false)
    (hadm : f.admin_only = true → check_admin cfg src = true)
    (hev : etype ∈ f.events)
    (hraise : f.raises = true)
    (hfire : allTriggers f etype (pyLower a0) text ≠ []) :
    dispatch cfg (pre ++ (m, fpre ++ f :: fpost) :: post) etype src text =
      runModules cfg etype src (pyLower a0) text pre ++
      runFuncs cfg m etype src (pyLower a0) text fpre ++
      ((allTriggers f etype (pyLower a0) text).take 1).map
        (DispatchAction.call m f.fname) ++
      (if etype == "privmsg" then
        [DispatchAction.reply src.nick (apologyText m f.fname)]
       else []) ++
      [DispatchAction.logError m f.fname] ++
      runFuncs cfg m etype src (pyLower a0) text fpost ++
      runModules cfg etype src (pyLower a0) text post := by
  have hd := dispatch_decomp cfg pre post m fpre fpost f etype src text a0 restTok hsplit
  rw [hd, dispatchFunc_eligible cfg m etype src (pyLower a0) text f hdis hadm hev]
  have hne : (allTriggers f etype (pyLower a0) text).isEmpty = false := by
    cases hts : allTriggers f etype (pyLower a0) text with
    | nil => exact absurd hts hfire
    | cons t ts => rfl
  simp only [execute_function, hraise, if_true, hne, Bool.not_false, if_pos,
    List.append_assoc]

/-- Witness for `dispatch_failure_isolation`: a raising handler `boom`
followed by a normal handler `echo` bound to the same command; on the
direct message `.boom now` the trace holds the single call into `boom`,
exactly one apology reply to the sender, the log record — and `echo` is
still invoked afterwards. -/
theorem dispatch_failure_isolation_witness :
    dispatch ⟨["root"], (".tld")⟩
      [("m1", [⟨"boom", some ["boom"], none, ["privmsg"], false, false, true⟩,
               ⟨"echo", some ["boom"], none, ["privmsg"], false, false, false⟩])]
      ("privmsg") ⟨"bob", none⟩ (".boom now") =
      [DispatchAction.call "m1" "boom" (Trigger.cmd "boom"),
       DispatchAction.reply "bob" (apologyText "m1" "boom"),
       DispatchAction.logError "m1" "boom",
       DispatchAction.call "m1" "echo" (Trigger.cmd "boom")] := by
  have h := dispatch_failure_isolation ⟨["root"], (".tld")⟩ [] [] "m1" []
      [⟨"echo", some ["boom"], none, ["privmsg"], false, false, false⟩]
      ⟨"boom", some ["boom"], none, ["privmsg"], false, false, true⟩
      "privmsg" ⟨"bob", none⟩ (".boom now") ".boom" ["now"] (by decide)
      rfl (fun hh => absurd hh (by decide)) (by decide) rfl (by decide)
  exact h.trans (by rfl)

/-! ## Claim C10 (empty-message dispatch no-op) -/

/-- Claim C10: when the inbound text splits into zero whitespace tokens,
`_dispatch` returns at line 240 before consulting any module, so no
handler is invoked, no reply or log is produced, and no exception is
raised. -/
theorem dispatch_empty_message_noop (cfg : BotConfig)
    (mods : List (String × List Func)) (etype : String) (src : Source)
    (text : String) (h : pysplit text = []) :
    dispatch cfg mods etype src text = [] := by
  simp only [dispatch, h]

/-- Witness for `dispatch_empty_message_noop`: whitespace-only text against
a registry holding a handler for every event type. -/
theorem dispatch_empty_message_noop_witness :
    dispatch ⟨["root"], (".tld")⟩
      [("greet", [⟨"hello", some ["hello"], none,
        ["privmsg", "pubmsg"], false, false, false⟩])]
      ("privmsg") ⟨"bob", none⟩ ("   ") = [] :=
  dispatch_empty_message_noop ⟨["root"], (".tld")⟩
    [("greet", [⟨"hello", some ["hello"], none,
      ["privmsg", "pubmsg"], false, false, false⟩])]
    ("privmsg") ⟨"bob", none⟩ ("   ") (by decide)
